import Mathlib

/-!
Formal model of the my-jemea-bot core: the passcode onboarding state machine
(`UserService`), the scheduled-message lifecycle (`MessageService` and the
per-minute delivery loop of `botNew.ts`), and the scheduling-time validation
utility (`TimezoneManager` in `lib/timezone.ts`).

The Prisma store is embedded as a Lean list of rows; each service method is a
pure function from store (plus explicit inputs such as "now", fresh ids, and
generated passcodes) to result and updated store.  JavaScript-specific
behaviour is modelled explicitly:

* `Date` values are `Option Int` (milliseconds since epoch); `none` stands
  for an Invalid Date (`NaN` timestamp), and every relational comparison
  against `none` is `false`, as in JavaScript.
* the `||` operator on possibly-undefined strings (`jsOr`) treats both
  `undefined` and the empty string as falsy; the `??` operator (`jsNullish`)
  only falls through on `undefined`.
-/

namespace JemeaBot

/-! ## Data model

Rows of the `users` and `messages` tables, with the columns the core reads
and writes.  `chatId = ""` marks an account not yet bound to a Telegram chat.
-/

structure User where
  id : Nat
  chatId : String
  username : Option String
  firstName : Option String
  lastName : Option String
  phoneno : Option String
  passcode : Option String
  isAdmin : Bool
  isActive : Bool
deriving DecidableEq

structure Message where
  id : Nat
  content : String
  title : Option String
  senderId : Nat
  scheduledFor : Option Int
  sent : Bool
  errorMessage : Option String
deriving DecidableEq

/-- JavaScript `a || b` on possibly-undefined strings: `undefined` and `""`
are falsy. -/
def jsOr (a b : Option String) : Option String :=
  match a with
  | some s => if s = "" then b else some s
  | none => b

/-- JavaScript `a ?? b` on possibly-undefined strings: only `undefined`
falls through. -/
def jsNullish (a b : Option String) : Option String :=
  match a with
  | some s => some s
  | none => b

/-- Strip leading whitespace characters. -/
def trimLeftChars : List Char → List Char
  | [] => []
  | c :: cs => if c.isWhitespace then trimLeftChars cs else c :: cs

/-- JavaScript `String.prototype.trim`: strip whitespace from both ends. -/
def trimStr (s : String) : String :=
  String.mk ((trimLeftChars (trimLeftChars s.data).reverse).reverse)

/-- JavaScript `String.prototype.toUpperCase`, character by character. -/
def toUpperStr (s : String) : String :=
  String.mk (s.data.map Char.toUpper)

/-- JavaScript `a?.trim() || null`: trim a possibly-undefined string, with
blank collapsing to `null`. -/
def trimOrNull (a : Option String) : Option String :=
  match a with
  | some s => if trimStr s = "" then none else some (trimStr s)
  | none => none

/-- JavaScript `<=` on date values; any comparison with an Invalid Date
(`none`, i.e. `NaN`) is `false`. -/
def jsLe : Option Int → Option Int → Bool
  | some a, some b => decide (a ≤ b)
  | _, _ => false

/-- JavaScript `<` on date/number values; any comparison with `NaN` is
`false`. -/
def jsLt : Option Int → Option Int → Bool
  | some a, some b => decide (a < b)
  | _, _ => false

/-- Decimal digit-run value accumulator (`none` on a non-digit). -/
def digitsVal : List Char → Nat → Option Nat
  | [], acc => some acc
  | c :: rest, acc =>
    if c.isDigit then digitsVal rest (acc * 10 + (c.toNat - 48)) else none

/-- Shallow model of JavaScript `Number(s)` for chat-id strings: the empty
(or all-blank) string converts to `0`, otherwise a signed decimal integer, and
anything unparseable is `NaN` (`none`). -/
def jsNumber (s : String) : Option Int :=
  match (trimStr s).data with
  | [] => some 0
  | '-' :: cs =>
    match cs with
    | [] => none
    | _ => (digitsVal cs 0).map (fun n => -(n : Int))
  | cs => (digitsVal cs 0).map (fun n => (n : Int))

namespace TimezoneManager

/-- Model of `ValidationResult` of `lib/timezone.ts`. -/
structure ValidationResult where
  isValid : Bool
  error : Option String
  warning : Option String
  timeUntilDelivery : Option String
deriving DecidableEq

/-- Model of `TimezoneManager.calculateTimeUntil` of `lib/timezone.ts`, with "now"
explicit.  The `none` (Invalid Date) case reproduces the JavaScript result:
every guard on `NaN` is false and the final interpolation prints `NaN`. -/
def calculateTimeUntil (targetDate : Option Int) (now : Int) : String :=
  match targetDate with
  | none => "NaN minutes"
  | some t =>
    let diff := t - now
    if diff ≤ 0 then "Past due"
    else
      let minutes := diff.fdiv (1000 * 60)
      let hours := minutes.fdiv 60
      let days := hours.fdiv 24
      if days > 0 then
        toString days ++ " day" ++ (if days > 1 then "s" else "") ++ ", " ++
          toString (hours % 24) ++ " hour" ++ (if hours % 24 ≠ 1 then "s" else "")
      else if hours > 0 then
        toString hours ++ " hour" ++ (if hours > 1 then "s" else "") ++ ", " ++
          toString (minutes % 60) ++ " minute" ++ (if minutes % 60 ≠ 1 then "s" else "")
      else
        toString minutes ++ " minute" ++ (if minutes ≠ 1 then "s" else "")

/-- Model of `TimezoneManager.validateScheduledTime` of `lib/timezone.ts`.

The ambient pieces are explicit parameters: `parse` is the JavaScript
`new Date(string)` constructor (`none` = Invalid Date — note it never
throws, so the `catch` branch returning "Invalid date format" is
unreachable and has no counterpart here), `now` is the current instant and
`oneYearFromNow` is `now` advanced by one calendar year
(`setFullYear(getFullYear() + 1)`), i.e. between 365 and 366 days ahead. -/
def validateScheduledTime (parse : String → Option Int) (now oneYearFromNow : Int)
    (localTimeString : String) : ValidationResult :=
  if localTimeString = "" then
    { isValid := true, error := none, warning := none, timeUntilDelivery := none }
  else
    let localTime := parse localTimeString
    let minutesDiff := localTime.map (fun t => (t - now).fdiv (1000 * 60))
    if jsLe localTime (some now) then
      { isValid := false, error := some "Scheduled time must be in the future",
        warning := none, timeUntilDelivery := none }
    else if jsLt minutesDiff (some 2) then
      { isValid := false,
        error := some "Schedule at least 2 minutes in the future for reliable delivery",
        warning := none, timeUntilDelivery := none }
    else if jsLt (some oneYearFromNow) localTime then
      { isValid := false,
        error := some "Scheduled time cannot be more than 1 year in the future",
        warning := none, timeUntilDelivery := none }
    else
      let warning : Option String :=
        if jsLt minutesDiff (some 5) then
          some "Message scheduled very soon. Consider allowing more processing time."
        else if jsLt (some (60 * 24 * 30)) minutesDiff then
          some "Message scheduled more than 30 days in the future."
        else none
      { isValid := true, error := none, warning := warning,
        timeUntilDelivery := some (calculateTimeUntil localTime now) }

end TimezoneManager

/-! ## UserService (`services/userService.ts`)

Each method takes the `users` table as a list and returns its result together
with the updated table.  Fresh row ids and the randomness behind passcode
generation are explicit arguments.  `findFirst`/`findUnique` are `List.find?`;
`update (where id)` rewrites the rows carrying that id in place.
-/

structure RegisterUserInput where
  chatId : String
  username : Option String
  firstName : Option String
  lastName : Option String

structure CreateUserInput where
  firstName : String
  lastName : Option String
  phoneno : String
  username : Option String
  isAdmin : Option Bool

structure PasscodeVerificationInput where
  chatId : String
  passcode : String
  username : Option String
  firstName : Option String
  lastName : Option String

/-- Result of `UserService.createUser`: the discriminated
`{success: true, user, passcode} | {success: false, error}` union. -/
inductive UserCreationResult where
  | ok (user : User) (passcode : String)
  | err (error : String)
deriving DecidableEq

namespace UserService

/-- Model of `prisma.user.update({where: {id}, data})`: rewrite the rows with this id. -/
def updateUserById (store : List User) (id : Nat) (u : User) : List User :=
  store.map (fun v => if v.id == id then u else v)

/-- Model of `UserService.getUserByChatId`: `findUnique({where: {chatId}})`. -/
def getUserByChatId (store : List User) (chatId : String) : Option User :=
  store.find? (fun u => u.chatId == chatId)

/-- Modelled from the spec: the Prisma schema file is not among the sources,
so the column defaults used by `registerUser`'s create branch follow §4.1 of
the specification — a self-registered account is created bound to the chat,
active, non-admin, with no passcode and no phone number. -/
def selfRegisteredUser (newId : Nat) (input : RegisterUserInput) : User :=
  { id := newId
    chatId := input.chatId
    username := jsOr input.username none
    firstName := jsOr input.firstName none
    lastName := jsOr input.lastName none
    phoneno := none
    passcode := none
    isAdmin := false
    isActive := true }

/-- Model of `UserService.registerUser`: look up by chat id; update profile fields with
`??` fallbacks and force `isActive`, or create a fresh row. -/
def registerUser (store : List User) (newId : Nat) (input : RegisterUserInput) :
    User × List User :=
  match store.find? (fun u => u.chatId == input.chatId) with
  | some existing =>
    let updated : User :=
      { existing with
        username := jsNullish input.username existing.username
        firstName := jsNullish input.firstName existing.firstName
        lastName := jsNullish input.lastName existing.lastName
        isActive := true }
    (updated, updateUserById store existing.id updated)
  | none =>
    let created := selfRegisteredUser newId input
    (created, store ++ [created])

/-- The alphabet of `UserService.generatePasscode`; `O` and `0` are absent. -/
def passcodeChars : List Char := "ABCDEFGHIJKLMNPQRSTUVWXYZ123456789".data

/-- Model of `UserService.generatePasscode`: eight characters drawn from
`passcodeChars`.  `Math.floor(Math.random() * chars.length)` is modelled by
an arbitrary choice sequence reduced modulo the alphabet size. -/
def generatePasscode (rand : Nat → Nat) : String :=
  String.mk ((List.range 8).map
    (fun i => passcodeChars.getD (rand i % passcodeChars.length) 'A'))

/-- Model of `UserService.createUser`: validate, reject an already-registered phone
number, then insert the pending row (`chatId = ""`, `isActive = false`) with
the supplied generated passcode.  The `catch` branch (store-level failure) is
outside the model. -/
def createUser (store : List User) (newId : Nat) (passcode : String)
    (input : CreateUserInput) : UserCreationResult × List User :=
  if (trimStr input.firstName) = "" then (.err "First name is required", store)
  else if (trimStr input.phoneno) = "" then (.err "Phone number is required", store)
  else
    match store.find? (fun u => u.phoneno == some input.phoneno) with
    | some _ => (.err "Phone number already registered", store)
    | none =>
      let user : User :=
        { id := newId
          chatId := ""
          username := trimOrNull input.username
          firstName := (trimStr input.firstName)
          lastName := trimOrNull input.lastName
          phoneno := some (trimStr input.phoneno)
          passcode := some passcode
          isAdmin := input.isAdmin.getD false
          isActive := false }
      (.ok user passcode, store ++ [user])

/-- The `findFirst` predicate of `verifyPasscodeAndRegister`: a pending row
holding this (already upper-cased) passcode. -/
def pendingMatch (code : String) (u : User) : Bool :=
  u.passcode == some code && u.chatId == "" && u.isActive == false

/-- Model of `UserService.verifyPasscodeAndRegister`: find a pending row by upper-cased
passcode; on a miss return `none` with the store untouched, on a hit bind the
chat id, merge profile fields with `||` fallbacks and activate. -/
def verifyPasscodeAndRegister (store : List User) (input : PasscodeVerificationInput) :
    Option User × List User :=
  match store.find? (pendingMatch (toUpperStr input.passcode)) with
  | none => (none, store)
  | some user =>
    let updated : User :=
      { user with
        chatId := input.chatId
        username := jsOr input.username user.username
        firstName := jsOr input.firstName user.firstName
        lastName := jsOr input.lastName user.lastName
        isActive := true }
    (some updated, updateUserById store user.id updated)

end UserService

/-! ## MessageService (`services/messageService.ts`) -/

namespace MessageService

/-- Model of `prisma.message.update({where: {id}, data})`: rewrite the rows with this
id through `f`. -/
def updateMessageById (store : List Message) (id : Nat) (f : Message → Message) :
    List Message :=
  store.map (fun m => if m.id == id then f m else m)

/-- Model of `MessageService.sendMessage`: insert a new message row.  With no
`scheduledFor` the row is created with `sent: !scheduledFor`, i.e. already
marked sent; `errorMessage` starts empty (schema default — the column is
nullable and only ever set by a failed delivery). -/
def sendMessage (store : List Message) (newId senderId : Nat) (content : String)
    (title : Option String) (scheduledFor : Option Int) : Message × List Message :=
  let m : Message :=
    { id := newId
      content := content
      title := jsOr title none
      senderId := senderId
      scheduledFor := scheduledFor
      sent := scheduledFor.isNone
      errorMessage := none }
  (m, store ++ [m])

/-- The due predicate of `getScheduledMessages`: `scheduledFor <= now AND
sent = false`.  A Prisma `lte` filter never matches a `NULL` column, hence
the `none` case is false. -/
def isDue (now : Int) (m : Message) : Bool :=
  (match m.scheduledFor with
   | some t => decide (t ≤ now)
   | none => false) && m.sent == false

/-- Model of `MessageService.getScheduledMessages`: every due message. -/
def getScheduledMessages (store : List Message) (now : Int) : List Message :=
  store.filter (isDue now)

/-- Model of `MessageService.markAsSent`: set `sent`, clear any previous error. -/
def markAsSent (store : List Message) (id : Nat) : List Message :=
  updateMessageById store id (fun m => { m with sent := true, errorMessage := none })

/-- Model of `MessageService.markMessageAsFailed`: keep `sent = false`, record the
failure description. -/
def markMessageAsFailed (store : List Message) (id : Nat) (err : String) :
    List Message :=
  updateMessageById store id (fun m => { m with sent := false, errorMessage := some err })

/-- Model of `MessageService.retryFailedMessage`: clear the error and reschedule for
"now". -/
def retryFailedMessage (store : List Message) (now : Int) (id : Nat) : List Message :=
  updateMessageById store id (fun m => { m with errorMessage := none, scheduledFor := some now })

end MessageService

/-! ## The per-minute delivery loop (`botNew.ts`, `cron.schedule("* * * * *")`)

The Telegram transport is a black box `transport : Int → String → Option
TelegramApiError` (`none` = the send succeeded).  `ErrorHandler.
handleTelegramError` of `lib/errors.ts` classifies a failure into the message
persisted in `errorMessage`.
-/

structure TelegramApiError where
  description : String
  errorCode : Option Int
deriving DecidableEq

/-- Model of `ErrorHandler.handleTelegramError` (`lib/errors.ts`), reduced to the
`message` of the error it produces: code 400 → `ValidationError`, 403 →
`AuthorizationError`, 404 → `NotFoundError("Chat or user")`, anything else →
`TelegramError`; all but the 404 case carry the Telegram description. -/
def handleTelegramError (e : TelegramApiError) : String :=
  if e.errorCode == some 400 then "Telegram API error: " ++ e.description
  else if e.errorCode == some 403 then "Telegram API error: " ++ e.description
  else if e.errorCode == some 404 then "Chat or user not found"
  else "Telegram API error: " ++ e.description

/-- The text the loop sends: title (when truthy) prepended to the content. -/
def formatMessageText (m : Message) : String :=
  match m.title with
  | some t => if t = "" then m.content else "📢 **" ++ t ++ "**\n\n" ++ m.content
  | none => m.content

/-- The `include: {sender}` of `getScheduledMessages`: the author row joined
by `senderId`.  The relation is required in the store, so the `""` default is
unreachable on well-formed data. -/
def senderChatId (users : List User) (m : Message) : String :=
  match users.find? (fun u => u.id == m.senderId) with
  | some u => u.chatId
  | none => ""

/-- One message of the loop body: resolve the destination (the configured
group if truthy, else the author's own chat), fail on an unparseable chat id,
otherwise attempt the transport and record the outcome.  Returns `none` for a
delivered message and `some e` for the recorded failure text. -/
def deliveryOutcome (transport : Int → String → Option TelegramApiError)
    (targetGroupId : Option String) (users : List User) (m : Message) : Option String :=
  let target : Option Int :=
    match targetGroupId with
    | some g => if g = "" then jsNumber (senderChatId users m) else jsNumber g
    | none => jsNumber (senderChatId users m)
  match target with
  | none => some "Invalid chat ID"
  | some chatId =>
    match transport chatId (formatMessageText m) with
    | none => none
    | some e => some (handleTelegramError e)

/-- The store update a delivery outcome applies to the message row. -/
def applyDelivery (outcome : Option String) (m : Message) : Message :=
  match outcome with
  | none => { m with sent := true, errorMessage := none }
  | some e => { m with sent := false, errorMessage := some e }

/-- The `try/catch` body of the loop for one message: mark sent on success,
mark failed (with the classified text) otherwise; either way the loop
continues with the next message. -/
def processScheduledMessage (transport : Int → String → Option TelegramApiError)
    (targetGroupId : Option String) (users : List User)
    (store : List Message) (m : Message) : List Message :=
  match deliveryOutcome transport targetGroupId users m with
  | none => MessageService.markAsSent store m.id
  | some e => MessageService.markMessageAsFailed store m.id e

/-- One tick of `cron.schedule("* * * * *")`: fetch the due batch once, then
process each member in order against the evolving store. -/
def pollAndDeliver (transport : Int → String → Option TelegramApiError)
    (targetGroupId : Option String) (users : List User)
    (store : List Message) (now : Int) : List Message :=
  (MessageService.getScheduledMessages store now).foldl
    (processScheduledMessage transport targetGroupId users) store

/-! ## Theorems -/

lemma passcodeChars_getD_mem (k : Nat) :
    UserService.passcodeChars.getD (k % UserService.passcodeChars.length) 'A' ∈
      UserService.passcodeChars := by
  have hlt : k % UserService.passcodeChars.length < UserService.passcodeChars.length :=
    Nat.mod_lt _ (by decide)
  rw [List.getD_eq_getElem _ _ hlt]
  exact List.getElem_mem _

/-- C8: every passcode produced by `generatePasscode` has exactly 8
characters, each an uppercase letter or digit, and the alphabet excludes both
the letter `O` and the digit `0`. -/
theorem passcode_format (rand : Nat → Nat) :
    (UserService.generatePasscode rand).length = 8 ∧
    ∀ c ∈ (UserService.generatePasscode rand).data,
      (c.isUpper = true ∨ c.isDigit = true) ∧ c ≠ 'O' ∧ c ≠ '0' := by
  constructor
  · simp [UserService.generatePasscode, String.length]
  · intro c hc
    have hc' : c ∈ (List.range 8).map
        (fun i => UserService.passcodeChars.getD
          (rand i % UserService.passcodeChars.length) 'A') := hc
    obtain ⟨i, _, rfl⟩ := List.mem_map.mp hc'
    have hmem := passcodeChars_getD_mem (rand i)
    revert hmem
    have hall : ∀ c ∈ UserService.passcodeChars,
        (c.isUpper = true ∨ c.isDigit = true) ∧ c ≠ 'O' ∧ c ≠ '0' := by decide
    exact hall _

/-- C2 (claim as stated is false): a message created through
`MessageService.sendMessage` with no `scheduledFor` does not satisfy the due
condition — concretely, the message `"Hi"` created into an empty store is
marked `sent = true` and the due-query does not return it. -/
theorem broadcast_unscheduled_due_counterexample :
    (MessageService.sendMessage [] 1 1 "Hi" none none).1.sent = true ∧
    (MessageService.sendMessage [] 1 1 "Hi" none none).1 ∉
      MessageService.getScheduledMessages
        (MessageService.sendMessage [] 1 1 "Hi" none none).2 0 := by
  decide

/-- C2 (amended): a message created via the authoring action with no
`scheduledFor` is created with `sent = true` — it is treated as already sent
rather than as immediately due, so it never satisfies the due condition and
is not returned by the due-query at any instant. -/
theorem broadcast_unscheduled_not_due (store : List Message) (newId senderId : Nat)
    (content : String) (title : Option String) (now : Int) :
    (MessageService.sendMessage store newId senderId content title none).1.sent = true ∧
    (MessageService.sendMessage store newId senderId content title none).1 ∉
      MessageService.getScheduledMessages
        (MessageService.sendMessage store newId senderId content title none).2 now := by
  refine ⟨rfl, ?_⟩
  intro hmem
  have hdue := (List.mem_filter.mp hmem).2
  simp [MessageService.isDue, MessageService.sendMessage] at hdue

/-- C4: retrying a failed message (`sent = false`, `errorMessage ≠ null`)
clears the error, reschedules it to "now" (a value ≤ now), and the message is
again returned by the due-query. -/
theorem retry_resets_to_due (store : List Message) (now : Int) (m : Message)
    (hm : m ∈ store) (hsent : m.sent = false) (_herr : m.errorMessage ≠ none) :
    ({ m with errorMessage := none, scheduledFor := some now } : Message).errorMessage
        = none ∧
    (∃ t, ({ m with errorMessage := none, scheduledFor := some now } : Message).scheduledFor
        = some t ∧ t ≤ now) ∧
    ({ m with errorMessage := none, scheduledFor := some now } : Message) ∈
      MessageService.getScheduledMessages
        (MessageService.retryFailedMessage store now m.id) now := by
  refine ⟨rfl, ⟨now, rfl, le_refl now⟩, ?_⟩
  apply List.mem_filter.mpr
  refine ⟨?_, ?_⟩
  · have hf : (fun x => if x.id == m.id then
        ({ x with errorMessage := none, scheduledFor := some now } : Message) else x) m =
        ({ m with errorMessage := none, scheduledFor := some now } : Message) := by
      simp
    exact hf ▸ List.mem_map_of_mem _ hm
  · simp [MessageService.isDue, hsent]

/-- C5: creating a pending account whose phone number already belongs to any
account in the store fails with the conflict error and leaves the store
unchanged — no row is created. -/
theorem phone_uniqueness_conflict (store : List User) (newId : Nat) (passcode : String)
    (input : CreateUserInput) (hfn : (trimStr input.firstName) ≠ "")
    (hpn : (trimStr input.phoneno) ≠ "")
    (hex : ∃ u ∈ store, u.phoneno = some input.phoneno) :
    UserService.createUser store newId passcode input =
      (.err "Phone number already registered", store) := by
  obtain ⟨u, hu, hup⟩ := hex
  unfold UserService.createUser
  rw [if_neg hfn, if_neg hpn]
  have hsome : (store.find? (fun v => v.phoneno == some input.phoneno)).isSome := by
    rw [List.find?_isSome]
    exact ⟨u, hu, by simp [hup]⟩
  obtain ⟨w, hw⟩ := Option.isSome_iff_exists.mp hsome
  rw [hw]

/-- C9: redemption failure does not leak whether the passcode ever existed —
against a store where the code never existed and against one where every
holder of the code is already active, `verifyPasscodeAndRegister` returns
one and the same "not found" (`none`) result. -/
theorem redeem_non_enumerable (neverStore redeemedStore : List User)
    (input1 input2 : PasscodeVerificationInput)
    (hsame : input2.passcode = input1.passcode)
    (hnever : ∀ u ∈ neverStore, u.passcode ≠ some (toUpperStr input1.passcode))
    (hredeemed : ∀ u ∈ redeemedStore,
      u.passcode = some (toUpperStr input1.passcode) → u.isActive = true) :
    (UserService.verifyPasscodeAndRegister neverStore input1).1 = none ∧
    (UserService.verifyPasscodeAndRegister redeemedStore input2).1 = none ∧
    (UserService.verifyPasscodeAndRegister neverStore input1).1 =
      (UserService.verifyPasscodeAndRegister redeemedStore input2).1 := by
  have h1 : neverStore.find? (UserService.pendingMatch (toUpperStr input1.passcode)) = none := by
    rw [List.find?_eq_none]
    intro u hu hp
    have := hnever u hu
    simp [UserService.pendingMatch] at hp
    exact this hp.1.1
  have h2 : redeemedStore.find? (UserService.pendingMatch (toUpperStr input2.passcode)) = none := by
    rw [List.find?_eq_none]
    intro u hu hp
    simp [UserService.pendingMatch, hsame] at hp
    have hact := hredeemed u hu hp.1.1
    rw [hact] at hp
    simp at hp
  constructor
  · unfold UserService.verifyPasscodeAndRegister
    rw [h1]
  constructor
  · unfold UserService.verifyPasscodeAndRegister
    rw [h2]
  · unfold UserService.verifyPasscodeAndRegister
    rw [h1, h2]

/-- Evaluation of `validateScheduledTime` on an input parsing to `now + d`:
the branch taken depends only on the offset `d`. -/
lemma validateScheduledTime_at_offset (parse : String → Option Int)
    (now oneYearFromNow d : Int) (s : String) (hne : s ≠ "")
    (hp : parse s = some (now + d)) :
    TimezoneManager.validateScheduledTime parse now oneYearFromNow s =
      if d ≤ 0 then
        { isValid := false, error := some "Scheduled time must be in the future",
          warning := none, timeUntilDelivery := none }
      else if d.fdiv (1000 * 60) < 2 then
        { isValid := false,
          error := some "Schedule at least 2 minutes in the future for reliable delivery",
          warning := none, timeUntilDelivery := none }
      else if oneYearFromNow < now + d then
        { isValid := false,
          error := some "Scheduled time cannot be more than 1 year in the future",
          warning := none, timeUntilDelivery := none }
      else
        { isValid := true, error := none,
          warning :=
            if d.fdiv (1000 * 60) < 5 then
              some "Message scheduled very soon. Consider allowing more processing time."
            else if 60 * 24 * 30 < d.fdiv (1000 * 60) then
              some "Message scheduled more than 30 days in the future."
            else none,
          timeUntilDelivery :=
            some (TimezoneManager.calculateTimeUntil (some (now + d)) now) } := by
  unfold TimezoneManager.validateScheduledTime
  rw [if_neg hne]
  simp only [hp, Option.map_some', jsLe, jsLt, decide_eq_true_eq]
  have hd : now + d - now = d := by ring
  rw [hd]
  by_cases h0 : d ≤ 0
  · rw [if_pos (by omega : now + d ≤ now), if_pos h0]
  · rw [if_neg (by omega : ¬ now + d ≤ now), if_neg h0]

/-- C3: boundary behaviour of `validateScheduledTime` around a fixed now:
one second in the past and 90 seconds out are invalid, 3 minutes out is valid
with a warning, 1 hour out is valid with no warning, 40 days out is valid
with a warning, 400 days out is invalid, and the empty string (send
immediately) is valid. -/
theorem validateScheduledTime_boundaries
    (parse : String → Option Int) (now oneYearFromNow : Int)
    (sPast s90 s3m s1h s40d s400d : String)
    (hyr1 : now + 365 * 86400000 ≤ oneYearFromNow)
    (hyr2 : oneYearFromNow ≤ now + 366 * 86400000)
    (hPastNe : sPast ≠ "") (hPast : parse sPast = some (now - 1000))
    (h90Ne : s90 ≠ "") (h90 : parse s90 = some (now + 90000))
    (h3mNe : s3m ≠ "") (h3m : parse s3m = some (now + 180000))
    (h1hNe : s1h ≠ "") (h1h : parse s1h = some (now + 3600000))
    (h40dNe : s40d ≠ "") (h40d : parse s40d = some (now + 3456000000))
    (h400dNe : s400d ≠ "") (h400d : parse s400d = some (now + 34560000000)) :
    (TimezoneManager.validateScheduledTime parse now oneYearFromNow sPast).isValid
        = false ∧
    (TimezoneManager.validateScheduledTime parse now oneYearFromNow s90).isValid
        = false ∧
    ((TimezoneManager.validateScheduledTime parse now oneYearFromNow s3m).isValid
        = true ∧
      (TimezoneManager.validateScheduledTime parse now oneYearFromNow s3m).warning.isSome
        = true) ∧
    ((TimezoneManager.validateScheduledTime parse now oneYearFromNow s1h).isValid
        = true ∧
      (TimezoneManager.validateScheduledTime parse now oneYearFromNow s1h).warning
        = none) ∧
    ((TimezoneManager.validateScheduledTime parse now oneYearFromNow s40d).isValid
        = true ∧
      (TimezoneManager.validateScheduledTime parse now oneYearFromNow s40d).warning.isSome
        = true) ∧
    (TimezoneManager.validateScheduledTime parse now oneYearFromNow s400d).isValid
        = false ∧
    TimezoneManager.validateScheduledTime parse now oneYearFromNow "" =
      { isValid := true, error := none, warning := none, timeUntilDelivery := none } := by
  have epast : now - 1000 = now + (-1000) := by omega
  have hPast' : parse sPast = some (now + (-1000)) := by
    rw [← epast]; exact hPast
  have cPast := validateScheduledTime_at_offset parse now oneYearFromNow (-1000)
    sPast hPastNe hPast'
  have c90 := validateScheduledTime_at_offset parse now oneYearFromNow 90000
    s90 h90Ne h90
  have c3m := validateScheduledTime_at_offset parse now oneYearFromNow 180000
    s3m h3mNe h3m
  have c1h := validateScheduledTime_at_offset parse now oneYearFromNow 3600000
    s1h h1hNe h1h
  have c40d := validateScheduledTime_at_offset parse now oneYearFromNow 3456000000
    s40d h40dNe h40d
  have c400d := validateScheduledTime_at_offset parse now oneYearFromNow 34560000000
    s400d h400dNe h400d
  refine ⟨?_, ?_, ⟨?_, ?_⟩, ⟨?_, ?_⟩, ⟨?_, ?_⟩, ?_, ?_⟩
  · rw [cPast, if_pos (by norm_num)]
  · rw [c90, if_neg (by norm_num), if_pos (by decide)]
  · rw [c3m, if_neg (by norm_num), if_neg (by decide), if_neg (by omega)]
  · rw [c3m, if_neg (by norm_num), if_neg (by decide), if_neg (by omega),
      if_pos (by decide)]
    rfl
  · rw [c1h, if_neg (by norm_num), if_neg (by decide), if_neg (by omega)]
  · rw [c1h, if_neg (by norm_num), if_neg (by decide), if_neg (by omega),
      if_neg (by decide), if_neg (by decide)]
  · rw [c40d, if_neg (by norm_num), if_neg (by decide), if_neg (by omega)]
  · rw [c40d, if_neg (by norm_num), if_neg (by decide), if_neg (by omega),
      if_neg (by decide), if_pos (by decide)]
    rfl
  · rw [c400d, if_neg (by norm_num), if_neg (by decide), if_pos (by omega)]
  · rfl

/-- The `new Date` behaviour backing the C3 witness: six sample strings
parsing to fixed instants around now = 0. -/
def sampleParse : String → Option Int := fun s =>
  if s = "a" then some (-1000)
  else if s = "b" then some 90000
  else if s = "c" then some 180000
  else if s = "d" then some 3600000
  else if s = "e" then some 3456000000
  else if s = "f" then some 34560000000
  else none

/-- C3 witness: the boundary outcomes at now = 0 with a 365-day year. -/
theorem validateScheduledTime_boundaries_witness :
    (TimezoneManager.validateScheduledTime sampleParse 0 31536000000 "a").isValid
        = false ∧
    (TimezoneManager.validateScheduledTime sampleParse 0 31536000000 "b").isValid
        = false ∧
    ((TimezoneManager.validateScheduledTime sampleParse 0 31536000000 "c").isValid
        = true ∧
      (TimezoneManager.validateScheduledTime sampleParse 0 31536000000 "c").warning.isSome
        = true) ∧
    ((TimezoneManager.validateScheduledTime sampleParse 0 31536000000 "d").isValid
        = true ∧
      (TimezoneManager.validateScheduledTime sampleParse 0 31536000000 "d").warning
        = none) ∧
    ((TimezoneManager.validateScheduledTime sampleParse 0 31536000000 "e").isValid
        = true ∧
      (TimezoneManager.validateScheduledTime sampleParse 0 31536000000 "e").warning.isSome
        = true) ∧
    (TimezoneManager.validateScheduledTime sampleParse 0 31536000000 "f").isValid
        = false ∧
    TimezoneManager.validateScheduledTime sampleParse 0 31536000000 "" =
      { isValid := true, error := none, warning := none, timeUntilDelivery := none } :=
  validateScheduledTime_boundaries sampleParse 0 31536000000 "a" "b" "c" "d" "e" "f"
    (by norm_num) (by norm_num)
    (by decide) (by decide) (by decide) (by decide) (by decide) (by decide)
    (by decide) (by decide) (by decide) (by decide) (by decide) (by decide)

/-- C10: a non-empty schedule string that parses to an Invalid Date (`NaN`)
is accepted — every comparison guard is false on `NaN`, so
`validateScheduledTime` returns valid with no error, no warning and a
`"NaN minutes"` delivery estimate; the "Invalid date format" branch is
unreachable. -/
theorem invalid_date_accepted (parse : String → Option Int) (now oneYearFromNow : Int)
    (s : String) (hne : s ≠ "") (hparse : parse s = none) :
    TimezoneManager.validateScheduledTime parse now oneYearFromNow s =
      { isValid := true, error := none, warning := none,
        timeUntilDelivery := some "NaN minutes" } := by
  unfold TimezoneManager.validateScheduledTime
  rw [if_neg hne]
  simp [hparse, jsLe, jsLt, TimezoneManager.calculateTimeUntil]

/-- C10 witness: the unparseable string `"garbage"` is accepted as valid. -/
theorem invalid_date_accepted_witness :
    TimezoneManager.validateScheduledTime (fun _ => none) 0 31536000000 "garbage" =
      { isValid := true, error := none, warning := none,
        timeUntilDelivery := some "NaN minutes" } :=
  invalid_date_accepted (fun _ => none) 0 31536000000 "garbage" (by decide) rfl

lemma find?_append_of_none {α : Type} (l₁ l₂ : List α) (p : α → Bool)
    (h : l₁.find? p = none) : (l₁ ++ l₂).find? p = l₂.find? p := by
  induction l₁ with
  | nil => rfl
  | cons a t ih =>
    have ha : ¬ p a := by
      intro hpa
      rw [List.find?_cons_of_pos _ hpa] at h
      exact Option.noConfusion h
    rw [List.find?_cons_of_neg _ ha] at h
    rw [List.cons_append, List.find?_cons_of_neg _ ha]
    exact ih h

/-- Updating (by id) the first row matching a chat id leaves that row as the
first match, provided the replacement keeps the chat id. -/
lemma find?_chatId_updateUserById (store : List User) (e u' : User) (c : String)
    (hfind : store.find? (fun v => v.chatId == c) = some e)
    (hu : u'.chatId = c) :
    (UserService.updateUserById store e.id u').find? (fun v => v.chatId == c) =
      some u' := by
  induction store with
  | nil => exact Option.noConfusion hfind
  | cons a t ih =>
    unfold UserService.updateUserById
    simp only [List.map_cons]
    cases ha : a.chatId == c with
    | true =>
      simp only [List.find?_cons, ha] at hfind
      injection hfind with he
      subst he
      simp [List.find?_cons, hu]
    | false =>
      simp only [List.find?_cons, ha] at hfind
      cases hid : a.id == e.id with
      | true => simp [List.find?_cons, hid, hu]
      | false =>
        simp only [hid, Bool.false_eq_true, if_false, List.find?_cons, ha]
        exact ih hfind

/-- Helper: `registerUser` in the already-registered case is the profile update. -/
lemma registerUser_update_case (store : List User) (newId : Nat)
    (input : RegisterUserInput) (e : User)
    (hfind : store.find? (fun u => u.chatId == input.chatId) = some e) :
    UserService.registerUser store newId input =
      ({ e with
          username := jsNullish input.username e.username
          firstName := jsNullish input.firstName e.firstName
          lastName := jsNullish input.lastName e.lastName
          isActive := true },
        UserService.updateUserById store e.id
          { e with
            username := jsNullish input.username e.username
            firstName := jsNullish input.firstName e.firstName
            lastName := jsNullish input.lastName e.lastName
            isActive := true }) := by
  unfold UserService.registerUser
  rw [hfind]

/-- After any `registerUser` call, the first row carrying the input chat id
is exactly the returned account. -/
lemma registerUser_find?_chatId (store : List User) (newId : Nat)
    (input : RegisterUserInput) :
    ((UserService.registerUser store newId input).2).find?
        (fun v => v.chatId == input.chatId) =
      some (UserService.registerUser store newId input).1 := by
  cases hfind : store.find? (fun u => u.chatId == input.chatId) with
  | none =>
    unfold UserService.registerUser
    rw [hfind]
    simp only []
    rw [find?_append_of_none _ _ _ hfind]
    exact List.find?_cons_of_pos _ (by simp [UserService.selfRegisteredUser])
  | some e =>
    rw [registerUser_update_case store newId input e hfind]
    exact find?_chatId_updateUserById store e _ input.chatId hfind
      (by simpa using List.find?_some hfind)

/-- C7: registering the same chat id twice never creates a second row — the
second call updates in place (store size unchanged), overwrites the profile
with its supplied (non-undefined) fields via the `??` merge, forces
`isActive = true`, and its returned account is the row now stored for that
chat id. -/
theorem registerSelf_idempotent (store : List User) (newId1 newId2 : Nat)
    (input1 input2 : RegisterUserInput) (hchat : input2.chatId = input1.chatId) :
    let r1 := UserService.registerUser store newId1 input1
    let r2 := UserService.registerUser r1.2 newId2 input2
    r2.2.length = r1.2.length ∧
    r2.1.username = jsNullish input2.username r1.1.username ∧
    r2.1.firstName = jsNullish input2.firstName r1.1.firstName ∧
    r2.1.lastName = jsNullish input2.lastName r1.1.lastName ∧
    r2.1.isActive = true ∧
    UserService.getUserByChatId r2.2 input2.chatId = some r2.1 := by
  have hfind2 : (UserService.registerUser store newId1 input1).2.find?
      (fun v => v.chatId == input2.chatId) =
      some (UserService.registerUser store newId1 input1).1 := by
    rw [hchat]
    exact registerUser_find?_chatId store newId1 input1
  have hsecond := registerUser_update_case
    (UserService.registerUser store newId1 input1).2 newId2 input2
    (UserService.registerUser store newId1 input1).1 hfind2
  refine ⟨?_, ?_, ?_, ?_, ?_, ?_⟩
  · rw [hsecond]
    simp [UserService.updateUserById]
  · rw [hsecond]
  · rw [hsecond]
  · rw [hsecond]
  · rw [hsecond]
  · exact registerUser_find?_chatId _ newId2 input2

/-- Updating every row with a given id leaves the replacement as the first
row found under that id, provided some row carries the id and the
replacement keeps it. -/
lemma find?_id_updateUserById (store : List User) (j : Nat) (u' : User)
    (hmem : ∃ v ∈ store, v.id = j) (hid : u'.id = j) :
    (UserService.updateUserById store j u').find? (fun v => v.id == j) = some u' := by
  induction store with
  | nil =>
    obtain ⟨v, hv, _⟩ := hmem
    exact absurd hv (List.not_mem_nil v)
  | cons a t ih =>
    unfold UserService.updateUserById
    simp only [List.map_cons]
    cases ha : a.id == j with
    | true => simp [List.find?_cons, ha, hid]
    | false =>
      simp only [List.find?_cons, ha, Bool.false_eq_true, if_false]
      apply ih
      obtain ⟨v, hv, hvj⟩ := hmem
      rcases List.mem_cons.mp hv with rfl | hvt
      · rw [show (v.id == j) = true by simp [hvj]] at ha
        exact Bool.noConfusion ha
      · exact ⟨v, hvt, hvj⟩

/-- Helper: `verifyPasscodeAndRegister` with no matching pending row: "not found",
store untouched. -/
lemma verifyPasscode_none_case (store : List User) (input : PasscodeVerificationInput)
    (h : store.find? (UserService.pendingMatch (toUpperStr input.passcode)) = none) :
    UserService.verifyPasscodeAndRegister store input = (none, store) := by
  unfold UserService.verifyPasscodeAndRegister
  rw [h]

/-- Helper: `verifyPasscodeAndRegister` on a hit: bind the chat id and activate. -/
lemma verifyPasscode_some_case (store : List User) (input : PasscodeVerificationInput)
    (u : User)
    (h : store.find? (UserService.pendingMatch (toUpperStr input.passcode)) = some u) :
    UserService.verifyPasscodeAndRegister store input =
      (some { u with
          chatId := input.chatId
          username := jsOr input.username u.username
          firstName := jsOr input.firstName u.firstName
          lastName := jsOr input.lastName u.lastName
          isActive := true },
        UserService.updateUserById store u.id
          { u with
            chatId := input.chatId
            username := jsOr input.username u.username
            firstName := jsOr input.firstName u.firstName
            lastName := jsOr input.lastName u.lastName
            isActive := true }) := by
  unfold UserService.verifyPasscodeAndRegister
  rw [h]

/-- C1: when a passcode identifies a unique pending account, a first
redemption succeeds, a second sequential redemption of the same passcode
returns "not found" (`none`) and leaves the store untouched, and the
account keeps the chat id bound by the first redemption. -/
theorem passcode_single_use (store : List User)
    (input1 input2 : PasscodeVerificationInput) (u : User)
    (hsame : (toUpperStr input2.passcode) = (toUpperStr input1.passcode))
    (hfind : store.find? (UserService.pendingMatch (toUpperStr input1.passcode)) = some u)
    (huniq : ∀ v ∈ store,
      UserService.pendingMatch (toUpperStr input1.passcode) v = true → v.id = u.id) :
    let r1 := UserService.verifyPasscodeAndRegister store input1
    let r2 := UserService.verifyPasscodeAndRegister r1.2 input2
    r1.1.isSome = true ∧
    r2.1 = none ∧
    r2.2 = r1.2 ∧
    (r2.2.find? (fun v => v.id == u.id)).map User.chatId = some input1.chatId := by
  have h1 := verifyPasscode_some_case store input1 u hfind
  have hnone : (UserService.verifyPasscodeAndRegister store input1).2.find?
      (UserService.pendingMatch (toUpperStr input2.passcode)) = none := by
    rw [h1, hsame, List.find?_eq_none]
    intro x hx
    obtain ⟨v, hv, rfl⟩ := List.mem_map.mp hx
    by_cases hvid : (v.id == u.id) = true
    · rw [if_pos hvid]
      simp [UserService.pendingMatch]
    · rw [if_neg hvid]
      intro hp
      exact absurd (huniq v hv hp) (by simpa using hvid)
  have h2 := verifyPasscode_none_case
    (UserService.verifyPasscodeAndRegister store input1).2 input2 hnone
  have hmem : ∃ v ∈ store, v.id = u.id :=
    ⟨u, List.mem_of_find?_eq_some hfind, rfl⟩
  refine ⟨?_, ?_, ?_, ?_⟩
  · rw [h1]
    rfl
  · rw [h2]
  · rw [h2]
  · rw [h2, h1]
    rw [find?_id_updateUserById store u.id
      { u with
        chatId := input1.chatId
        username := jsOr input1.username u.username
        firstName := jsOr input1.firstName u.firstName
        lastName := jsOr input1.lastName u.lastName
        isActive := true } hmem rfl]
    rfl

lemma applyDelivery_id (o : Option String) (m : Message) :
    (applyDelivery o m).id = m.id := by
  cases o <;> rfl

/-- Both outcome branches of the loop body are the same keyed row update. -/
lemma processScheduledMessage_eq_update (transport : Int → String → Option TelegramApiError)
    (tg : Option String) (users : List User) (store : List Message) (m : Message) :
    processScheduledMessage transport tg users store m =
      MessageService.updateMessageById store m.id
        (applyDelivery (deliveryOutcome transport tg users m)) := by
  unfold processScheduledMessage
  cases deliveryOutcome transport tg users m <;> rfl

/-- A keyed update with an id-preserving function rewrites exactly the row
found under that id. -/
lemma find?_id_updateMessageById_eq (store : List Message) (j : Nat)
    (f : Message → Message) (hf : ∀ x, (f x).id = x.id) :
    (MessageService.updateMessageById store j f).find? (fun v => v.id == j) =
      (store.find? (fun v => v.id == j)).map f := by
  induction store with
  | nil => rfl
  | cons a t ih =>
    unfold MessageService.updateMessageById
    simp only [List.map_cons]
    cases ha : a.id == j with
    | true => simp [List.find?_cons, ha, hf]
    | false =>
      simp only [List.find?_cons, ha, Bool.false_eq_true, if_false]
      exact ih

/-- A keyed update under a different id is invisible to a find-by-id. -/
lemma find?_id_updateMessageById_ne (store : List Message) (i j : Nat)
    (f : Message → Message) (hf : ∀ x, (f x).id = x.id) (hij : i ≠ j) :
    (MessageService.updateMessageById store i f).find? (fun v => v.id == j) =
      store.find? (fun v => v.id == j) := by
  induction store with
  | nil => rfl
  | cons a t ih =>
    unfold MessageService.updateMessageById
    simp only [List.map_cons]
    cases ha : a.id == j with
    | true =>
      have haj : a.id = j := by simpa using ha
      have hai : (a.id == i) = false := by
        simp only [haj, beq_eq_false_iff_ne, ne_eq]
        omega
      simp [List.find?_cons, ha, hai]
    | false =>
      cases hai : a.id == i with
      | true =>
        have hfa : ((f a).id == j) = false := by rw [hf a]; exact ha
        simp only [hai, if_true, List.find?_cons, hfa, ha, Bool.false_eq_true, if_false]
        exact ih
      | false =>
        simp only [hai, Bool.false_eq_true, if_false, List.find?_cons, ha]
        exact ih

/-- Messages whose ids are absent from the batch are untouched by a poll. -/
lemma processAll_find?_untouched (transport : Int → String → Option TelegramApiError)
    (tg : Option String) (users : List User) (batch store : List Message) (j : Nat)
    (hj : ∀ b ∈ batch, b.id ≠ j) :
    (batch.foldl (processScheduledMessage transport tg users) store).find?
        (fun v => v.id == j) = store.find? (fun v => v.id == j) := by
  induction batch generalizing store with
  | nil => rfl
  | cons b bs ih =>
    simp only [List.foldl_cons]
    rw [ih _ (fun x hx => hj x (List.mem_cons_of_mem b hx))]
    rw [processScheduledMessage_eq_update]
    exact find?_id_updateMessageById_ne store b.id j _ (applyDelivery_id _)
      (hj b (List.mem_cons_self b bs))

/-- The heart of failure isolation: under distinct batch ids, each batch
member's stored row ends the poll updated by exactly its own delivery
outcome, regardless of the outcomes of the other members. -/
lemma processAll_find?_mem (transport : Int → String → Option TelegramApiError)
    (tg : Option String) (users : List User) (batch : List Message)
    (store : List Message) (m row : Message)
    (hnd : (batch.map Message.id).Nodup) (hm : m ∈ batch)
    (hrow : store.find? (fun v => v.id == m.id) = some row) :
    (batch.foldl (processScheduledMessage transport tg users) store).find?
        (fun v => v.id == m.id) =
      some (applyDelivery (deliveryOutcome transport tg users m) row) := by
  induction batch generalizing store with
  | nil => exact absurd hm (List.not_mem_nil m)
  | cons b bs ih =>
    simp only [List.map_cons, List.nodup_cons] at hnd
    simp only [List.foldl_cons]
    rcases List.mem_cons.mp hm with rfl | hmbs
    · have hbs : ∀ x ∈ bs, x.id ≠ m.id := by
        intro x hx heq
        exact hnd.1 (heq ▸ List.mem_map_of_mem Message.id hx)
      rw [processAll_find?_untouched transport tg users bs _ m.id hbs]
      rw [processScheduledMessage_eq_update]
      rw [find?_id_updateMessageById_eq store m.id _ (applyDelivery_id _)]
      rw [hrow]
      rfl
    · have hbm : b.id ≠ m.id := by
        intro heq
        exact hnd.1 (heq ▸ List.mem_map_of_mem Message.id hmbs)
      have hrow' : (processScheduledMessage transport tg users store b).find?
          (fun v => v.id == m.id) = some row := by
        rw [processScheduledMessage_eq_update,
          find?_id_updateMessageById_ne store b.id m.id _ (applyDelivery_id _) hbm]
        exact hrow
      exact ih _ hnd.2 hmbs hrow'

/-- With pairwise-distinct ids, find-by-id retrieves exactly a member. -/
lemma find?_id_of_nodup (store : List Message) (m : Message) (hm : m ∈ store)
    (hnd : (store.map Message.id).Nodup) :
    store.find? (fun v => v.id == m.id) = some m := by
  induction store with
  | nil => exact absurd hm (List.not_mem_nil m)
  | cons a t ih =>
    simp only [List.map_cons, List.nodup_cons] at hnd
    cases ha : a.id == m.id with
    | true =>
      rcases List.mem_cons.mp hm with rfl | hmt
      · simp [List.find?_cons, ha]
      · have : m.id ∈ t.map Message.id := List.mem_map_of_mem Message.id hmt
        have haeq : a.id = m.id := by simpa using ha
        exact absurd (haeq ▸ this) hnd.1
    | false =>
      rcases List.mem_cons.mp hm with rfl | hmt
      · simp at ha
      · simp only [List.find?_cons, ha, Bool.false_eq_true, if_false]
        exact ih hmt hnd.2

/-- C6: per-message failure isolation of the scheduled-message poll.  For
every member of the due batch (under pairwise-distinct row ids), the poll
leaves that member's row rewritten by its own delivery outcome — sent and
cleared on transport success, kept unsent with the classified failure text
recorded on transport failure — independent of the failures of any other
member of the batch. -/
theorem poll_failure_isolation (transport : Int → String → Option TelegramApiError)
    (targetGroupId : Option String) (users : List User) (store : List Message)
    (now : Int) (hids : (store.map Message.id).Nodup) (m : Message)
    (hm : m ∈ MessageService.getScheduledMessages store now) :
    (pollAndDeliver transport targetGroupId users store now).find?
        (fun v => v.id == m.id) =
      some (applyDelivery (deliveryOutcome transport targetGroupId users m) m) ∧
    (∀ e, deliveryOutcome transport targetGroupId users m = some e →
      (applyDelivery (deliveryOutcome transport targetGroupId users m) m).sent = false ∧
      (applyDelivery (deliveryOutcome transport targetGroupId users m) m).errorMessage
        = some e) ∧
    (deliveryOutcome transport targetGroupId users m = none →
      (applyDelivery (deliveryOutcome transport targetGroupId users m) m).sent = true ∧
      (applyDelivery (deliveryOutcome transport targetGroupId users m) m).errorMessage
        = none) := by
  have hnd : ((MessageService.getScheduledMessages store now).map Message.id).Nodup :=
    hids.sublist ((List.filter_sublist store).map Message.id)
  have hstore : m ∈ store := List.mem_of_mem_filter hm
  refine ⟨?_, ?_, ?_⟩
  · exact processAll_find?_mem transport targetGroupId users _ store m m hnd hm
      (find?_id_of_nodup store m hstore hids)
  · intro e he
    rw [he]
    exact ⟨rfl, rfl⟩
  · intro he
    rw [he]
    exact ⟨rfl, rfl⟩

/-! ## Concrete sample data for the witnesses -/

/-- A pending account, as created by `createUser`. -/
def samplePending : User :=
  { id := 1, chatId := "", username := none, firstName := some "Jane",
    lastName := none, phoneno := some "+15550001", passcode := some "ABCD2345",
    isAdmin := false, isActive := false }

/-- An active account bound to chat 5. -/
def sampleActive : User :=
  { id := 2, chatId := "5", username := some "jdoe", firstName := some "John",
    lastName := none, phoneno := some "+15550002", passcode := some "EFGH6789",
    isAdmin := false, isActive := true }

/-- An account whose passcode was already redeemed (`isActive = true`). -/
def sampleRedeemed : User :=
  { id := 3, chatId := "42", username := none, firstName := some "Ana",
    lastName := none, phoneno := some "+15550003", passcode := some "QRST2345",
    isAdmin := false, isActive := true }

/-- A failed broadcast message (unsent, error recorded, past due). -/
def sampleFailed : Message :=
  { id := 1, content := "Hello", title := none, senderId := 2,
    scheduledFor := some (-60000), sent := false,
    errorMessage := some "Telegram API error: chat not found" }

/-- A due message whose delivery the sample transport rejects. -/
def msgFail : Message :=
  { id := 1, content := "A", title := none, senderId := 2,
    scheduledFor := some (-1000), sent := false, errorMessage := none }

/-- A due message whose delivery the sample transport accepts. -/
def msgOk : Message :=
  { id := 2, content := "B", title := none, senderId := 2,
    scheduledFor := some (-1000), sent := false, errorMessage := none }

/-- A transport that rejects exactly the text `"A"`. -/
def sampleTransport : Int → String → Option TelegramApiError :=
  fun _ text =>
    if text = "A" then some { description := "chat not found", errorCode := some 400 }
    else none

/-- C1 witness: one pending account with passcode `ABCD2345`; the lower-case
submission binds chat `98765`, the repeat submission is rejected and the
binding survives. -/
theorem passcode_single_use_witness :
    let r1 := UserService.verifyPasscodeAndRegister [samplePending]
      { chatId := "98765", passcode := "abcd2345", username := none,
        firstName := none, lastName := none }
    let r2 := UserService.verifyPasscodeAndRegister r1.2
      { chatId := "11111", passcode := "ABCD2345", username := none,
        firstName := none, lastName := none }
    r1.1.isSome = true ∧
    r2.1 = none ∧
    r2.2 = r1.2 ∧
    (r2.2.find? (fun v => v.id == samplePending.id)).map User.chatId = some "98765" :=
  passcode_single_use [samplePending]
    { chatId := "98765", passcode := "abcd2345", username := none,
      firstName := none, lastName := none }
    { chatId := "11111", passcode := "ABCD2345", username := none,
      firstName := none, lastName := none }
    samplePending (by decide) (by decide) (by decide)

/-- C4 witness: retrying the failed sample message at now = 0 clears the
error, reschedules to 0 and the message is due again. -/
theorem retry_resets_to_due_witness :
    ({ sampleFailed with errorMessage := none, scheduledFor := some 0 } :
        Message).errorMessage = none ∧
    (∃ t, ({ sampleFailed with errorMessage := none, scheduledFor := some 0 } :
        Message).scheduledFor = some t ∧ t ≤ 0) ∧
    ({ sampleFailed with errorMessage := none, scheduledFor := some 0 } : Message) ∈
      MessageService.getScheduledMessages
        (MessageService.retryFailedMessage [sampleFailed] 0 sampleFailed.id) 0 :=
  retry_resets_to_due [sampleFailed] 0 sampleFailed (by decide) (by decide) (by decide)

/-- C5 witness: creating `"Jane"` with the phone number of the active sample
account is rejected and the store is unchanged. -/
theorem phone_uniqueness_conflict_witness :
    UserService.createUser [sampleActive] 3 "JKLM2345"
      { firstName := "Jane", lastName := none, phoneno := "+15550002",
        username := none, isAdmin := none } =
      (.err "Phone number already registered", [sampleActive]) :=
  phone_uniqueness_conflict [sampleActive] 3 "JKLM2345"
    { firstName := "Jane", lastName := none, phoneno := "+15550002",
      username := none, isAdmin := none }
    (by decide) (by decide) ⟨sampleActive, by decide, by decide⟩

/-- C6 witness: a two-message batch in which the transport rejects the first
message and accepts the second; each row ends with its own outcome. -/
theorem poll_failure_isolation_witness :
    ((pollAndDeliver sampleTransport (some "99") [sampleActive] [msgFail, msgOk] 0).find?
        (fun v => v.id == msgFail.id) =
      some (applyDelivery
        (deliveryOutcome sampleTransport (some "99") [sampleActive] msgFail) msgFail) ∧
    (∀ e, deliveryOutcome sampleTransport (some "99") [sampleActive] msgFail = some e →
      (applyDelivery
        (deliveryOutcome sampleTransport (some "99") [sampleActive] msgFail) msgFail).sent
          = false ∧
      (applyDelivery (deliveryOutcome sampleTransport (some "99") [sampleActive]
        msgFail) msgFail).errorMessage = some e) ∧
    (deliveryOutcome sampleTransport (some "99") [sampleActive] msgFail = none →
      (applyDelivery
        (deliveryOutcome sampleTransport (some "99") [sampleActive] msgFail) msgFail).sent
          = true ∧
      (applyDelivery (deliveryOutcome sampleTransport (some "99") [sampleActive]
        msgFail) msgFail).errorMessage = none)) ∧
    ((pollAndDeliver sampleTransport (some "99") [sampleActive] [msgFail, msgOk] 0).find?
        (fun v => v.id == msgOk.id) =
      some (applyDelivery
        (deliveryOutcome sampleTransport (some "99") [sampleActive] msgOk) msgOk) ∧
    (∀ e, deliveryOutcome sampleTransport (some "99") [sampleActive] msgOk = some e →
      (applyDelivery
        (deliveryOutcome sampleTransport (some "99") [sampleActive] msgOk) msgOk).sent
          = false ∧
      (applyDelivery (deliveryOutcome sampleTransport (some "99") [sampleActive]
        msgOk) msgOk).errorMessage = some e) ∧
    (deliveryOutcome sampleTransport (some "99") [sampleActive] msgOk = none →
      (applyDelivery
        (deliveryOutcome sampleTransport (some "99") [sampleActive] msgOk) msgOk).sent
          = true ∧
      (applyDelivery (deliveryOutcome sampleTransport (some "99") [sampleActive]
        msgOk) msgOk).errorMessage = none)) :=
  ⟨poll_failure_isolation sampleTransport (some "99") [sampleActive] [msgFail, msgOk] 0
      (by decide) msgFail (by decide),
    poll_failure_isolation sampleTransport (some "99") [sampleActive] [msgFail, msgOk] 0
      (by decide) msgOk (by decide)⟩

/-- C7 witness: chat `98765` registers twice with different profile fields;
the second call keeps one row, merges with `??`, and stays active. -/
theorem registerSelf_idempotent_witness :
    let r1 := UserService.registerUser [] 10
      { chatId := "98765", username := some "jane", firstName := some "Jane",
        lastName := none }
    let r2 := UserService.registerUser r1.2 11
      { chatId := "98765", username := some "jdoe", firstName := none,
        lastName := some "Doe" }
    r2.2.length = r1.2.length ∧
    r2.1.username = jsNullish (some "jdoe") r1.1.username ∧
    r2.1.firstName = jsNullish none r1.1.firstName ∧
    r2.1.lastName = jsNullish (some "Doe") r1.1.lastName ∧
    r2.1.isActive = true ∧
    UserService.getUserByChatId r2.2 "98765" = some r2.1 :=
  registerSelf_idempotent [] 10 11
    { chatId := "98765", username := some "jane", firstName := some "Jane",
      lastName := none }
    { chatId := "98765", username := some "jdoe", firstName := none,
      lastName := some "Doe" }
    rfl

/-- C9 witness: the same submission fails identically against a store where
the code never existed and against one where its holder is already active. -/
theorem redeem_non_enumerable_witness :
    (UserService.verifyPasscodeAndRegister [sampleActive]
      { chatId := "7", passcode := "QRST2345", username := none,
        firstName := none, lastName := none }).1 = none ∧
    (UserService.verifyPasscodeAndRegister [sampleRedeemed]
      { chatId := "7", passcode := "QRST2345", username := none,
        firstName := none, lastName := none }).1 = none ∧
    (UserService.verifyPasscodeAndRegister [sampleActive]
      { chatId := "7", passcode := "QRST2345", username := none,
        firstName := none, lastName := none }).1 =
      (UserService.verifyPasscodeAndRegister [sampleRedeemed]
        { chatId := "7", passcode := "QRST2345", username := none,
          firstName := none, lastName := none }).1 :=
  redeem_non_enumerable [sampleActive] [sampleRedeemed]
    { chatId := "7", passcode := "QRST2345", username := none,
      firstName := none, lastName := none }
    { chatId := "7", passcode := "QRST2345", username := none,
      firstName := none, lastName := none }
    rfl (by decide) (by decide)

end JemeaBot
